import Mathlib

/-!
Verification development for the AI core cog of the Discord-LLM-Selfbot
repository (`src/cogs/ai_core.py`).  Python strings are embedded as
`List Char`; the Python string operations used by the cog (`strip`,
`in`, `split`, `lower`) are embedded below.  The SQLite tables backing
the memory store and the reaction log are embedded as lists of rows;
the schema-migration path is embedded with an explicit
committed/current pair so that the mid-transaction `commit()` issued by
`create_memory_table` is visible.
-/

namespace AICore

/-! ## Embeddings of the Python string operations -/

/-- Embeds Python `str.strip()` (default: trim whitespace on both ends). -/
def pstrip (s : List Char) : List Char :=
  ((s.dropWhile Char.isWhitespace).reverse.dropWhile Char.isWhitespace).reverse

/-- Embeds Python `sub in s` (substring containment) for strings. -/
def containsSub (sep : List Char) : List Char → Bool
  | [] => sep.isEmpty
  | c :: rest => sep.isPrefixOf (c :: rest) || containsSub sep rest

/-- Auxiliary scanner for `psplit`.  The fuel argument only bounds the
recursion; `psplit` always supplies `t.length`, which is enough fuel
because every step either consumes at least one character or stops. -/
def psplitAux (sep : List Char) : Nat → List Char → List Char → List (List Char)
  | _, [], acc => [acc.reverse]
  | 0, c :: rest, acc => [acc.reverse ++ (c :: rest)]
  | fuel + 1, c :: rest, acc =>
    if sep.isPrefixOf (c :: rest) then
      acc.reverse :: psplitAux sep fuel ((c :: rest).drop sep.length) []
    else
      psplitAux sep fuel rest (c :: acc)

/-- Embeds Python `s.split(sep)` for a non-empty separator: leftmost,
non-overlapping occurrences, always at least one resulting part. -/
def psplit (sep t : List Char) : List (List Char) :=
  if sep = [] then [t] else psplitAux sep t.length t []

/-- The directive marker `[MEMORIZE]` (ai_core.py lines 291, 301). -/
def memMarker : List Char := ("[MEMORIZE]").toList

/-- The directive marker `[RELATIONSHIP]` (ai_core.py lines 292, 308). -/
def relMarker : List Char := ("[RELATIONSHIP]").toList

/-- The sentinel placeholder used for fresh profiles (`"No memories yet."`). -/
def placeholderNotes : List Char := ("No memories yet.").toList

/-! ## Memory store (table `memories`, ai_core.py lines 178-232) -/

/-- A row of the current `memories` table:
`(user_id, guild_id, user_name, notes, relationship_status)` with
primary key `(user_id, guild_id)`. -/
structure MemRow where
  user_id : Nat
  guild_id : Nat
  user_name : List Char
  notes : List Char
  relationship_status : List Char
deriving DecidableEq, Repr

/-- The `memories` table as a list of rows, key-unique by construction. -/
abbrev MemDB := List MemRow

/-- The SQL key predicate `WHERE user_id = ? AND guild_id = ?`. -/
def rowKeyMatch (uid gid : Nat) (r : MemRow) : Bool :=
  r.user_id == uid && r.guild_id == gid

/-- Row lookup by primary key. -/
def findRow (db : MemDB) (uid gid : Nat) : Option MemRow :=
  db.find? (rowKeyMatch uid gid)

/-- Embeds `AICore.get_user_profile` (lines 202-211): `INSERT OR IGNORE`
a default row (placeholder notes, relationship defaulting to
`'neutral'`), then select and return `(notes, relationship_status)`.
Returns the updated table together with the selected pair; the final
`("No memories yet.", "neutral")` fallback mirrors
`result if result else (...)`. -/
def getUserProfile (db : MemDB) (uid : Nat) (name : List Char) (gid : Nat) :
    MemDB × List Char × List Char :=
  let db' := match findRow db uid gid with
    | some _ => db
    | none => db ++ [⟨uid, gid, name, placeholderNotes, ("neutral").toList⟩]
  match findRow db' uid gid with
  | some r => (db', r.notes, r.relationship_status)
  | none => (db', placeholderNotes, ("neutral").toList)

/-- Embeds `AICore.set_user_notes` (lines 213-217):
`UPDATE memories SET notes = ? WHERE user_id = ? AND guild_id = ?`. -/
def setUserNotes (db : MemDB) (uid : Nat) (newNotes : List Char) (gid : Nat) : MemDB :=
  db.map (fun r => if rowKeyMatch uid gid r then { r with notes := newNotes } else r)

/-- Embeds `AICore.set_user_relationship` (lines 228-232):
`UPDATE memories SET relationship_status = ? WHERE user_id = ? AND guild_id = ?`. -/
def setUserRelationship (db : MemDB) (uid : Nat) (status : List Char) (gid : Nat) : MemDB :=
  db.map (fun r => if rowKeyMatch uid gid r then { r with relationship_status := status } else r)

/-- Embeds `AICore.append_user_memory` (lines 219-226).  Note the code
tests `"No memories yet." in notes` — substring containment, not
equality. -/
def appendUserMemory (db : MemDB) (uid : Nat) (memorySummary : List Char) (gid : Nat) : MemDB :=
  let p := getUserProfile db uid (("Unknown").toList) gid
  let notes := p.2.1
  let newNotes :=
    if containsSub placeholderNotes notes then
      ("- ").toList ++ memorySummary
    else
      notes ++ ("\n- ").toList ++ memorySummary
  setUserNotes p.1 uid newNotes gid

/-- Embeds the `!memory clear` command body (lines 411-417):
`set_user_notes(user.id, "No memories yet.", guild_id)`. -/
def memoryClear (db : MemDB) (uid : Nat) (gid : Nat) : MemDB :=
  setUserNotes db uid placeholderNotes gid

/-! ## Reaction log (table `reacted_messages`, lines 192-200, 645-658) -/

/-- The `reacted_messages` table: recorded message ids
(`message_id INTEGER PRIMARY KEY`). -/
abbrev ReactionLog := List Nat

/-- Embeds the dedup check
`SELECT 1 FROM reacted_messages WHERE message_id = ?` (line 646). -/
def hasReacted (log : ReactionLog) (mid : Nat) : Bool :=
  log.contains mid

/-- Embeds `INSERT INTO reacted_messages (message_id) VALUES (?)`
(line 656).  A plain insert on a primary-key column: inserting an id
already present violates the unique constraint and raises
(`sqlite3.IntegrityError`), modelled as `Except.error ()`. -/
def recordReaction (log : ReactionLog) (mid : Nat) : Except Unit ReactionLog :=
  if log.contains mid then Except.error () else Except.ok (mid :: log)

/-! ## Response parsing and the reactive reply
(`AICore.get_contextual_response`, lines 268-323) -/

/-- What the post-completion part of `get_contextual_response` did:
which directive payloads were applied, whether a reply was sent (and
its text), and whether an exception was caught by the enclosing
`try/except`. -/
structure RespOutcome where
  memorized : Option (List Char)
  relationSet : Option (List Char)
  replySent : Option (List Char)
  errored : Bool
deriving DecidableEq, Repr

/-- Embeds lines 315-320: if the remaining reply text is non-empty, type
and send it, and on a successful send reset the boredom counter to 0.
A failing send raises; the exception is caught by the handler on line
322, so the directive effects already applied persist and no reply is
recorded. -/
def sendStep (db : MemDB) (boredom : Nat) (memEff relEff : Option (List Char))
    (r : List Char) (sendOk : Bool) : MemDB × Nat × RespOutcome :=
  if r.isEmpty then (db, boredom, ⟨memEff, relEff, none, false⟩)
  else if sendOk then (db, 0, ⟨memEff, relEff, some r, false⟩)
  else (db, boredom, ⟨memEff, relEff, none, true⟩)

/-- Embeds lines 301-306, the branch
`if "[MEMORIZE]" in full_response`.  It splits `reply_text` (still
equal to `full_response` at this point) on the marker; Python
`parts[1]` raises `IndexError` when the split produced a single part —
modelled as `Except.error` carrying what the enclosing handler (line
322) leaves behind.  `parts[0]` never raises because `split` always
returns at least one part.  On success, returns the updated table, the
truncated `reply_text`, and the applied memory payload if any. -/
def memorizeStep (db : MemDB) (authorId gid boredom : Nat) (full : List Char) :
    Except (MemDB × Nat × RespOutcome) (MemDB × List Char × Option (List Char)) :=
  if containsSub memMarker full then
    let parts := psplit memMarker full
    let r1 := pstrip (parts.headD [])
    match parts.get? 1 with
    | none => Except.error (db, boredom, ⟨none, none, none, true⟩)
    | some p1 =>
      let memorySummary := pstrip ((psplit relMarker p1).headD [])
      if memorySummary.isEmpty then Except.ok (db, r1, none)
      else Except.ok (appendUserMemory db authorId memorySummary gid, r1, some memorySummary)
  else Except.ok (db, full, none)

/-- Embeds lines 308-313, the branch
`if "[RELATIONSHIP]" in full_response`.  Faithful point: the condition
tests `full_response`, but line 309 splits the *current* `reply_text`
(`r1`), which the memorize branch may already have truncated — when
the marker is no longer in `r1`, Python `parts[1]` raises
`IndexError`, caught on line 322 with the memorize effect kept. -/
def relationStep (db1 : MemDB) (authorId gid boredom : Nat) (full r1 : List Char)
    (memEff : Option (List Char)) :
    Except (MemDB × Nat × RespOutcome) (MemDB × List Char × Option (List Char)) :=
  if containsSub relMarker full then
    let parts := psplit relMarker r1
    let r2 := pstrip (parts.headD [])
    match parts.get? 1 with
    | none => Except.error (db1, boredom, ⟨memEff, none, none, true⟩)
    | some q1 =>
      let newRelationship := pstrip ((psplit memMarker q1).headD [])
      if newRelationship.isEmpty then Except.ok (db1, r2, none)
      else Except.ok (setUserRelationship db1 authorId newRelationship gid, r2, some newRelationship)
  else Except.ok (db1, r1, none)

/-- Embeds lines 298-320 of `get_contextual_response`: strip the raw
completion text, run the two directive branches in source order, then
the send step. -/
def applyDirectivesAndReply (db : MemDB) (authorId : Nat) (gid : Nat) (boredom : Nat)
    (raw : List Char) (sendOk : Bool) : MemDB × Nat × RespOutcome :=
  let full := pstrip raw
  match memorizeStep db authorId gid boredom full with
  | Except.error out => out
  | Except.ok (db1, r1, memEff) =>
    match relationStep db1 authorId gid boredom full r1 memEff with
    | Except.error out => out
    | Except.ok (db2, r2, relEff) => sendStep db2 boredom memEff relEff r2 sendOk

/-- Embeds `AICore.get_contextual_response` (lines 268-323): resolve the
guild scope (`0` when the message has no guild), run `get_user_profile`
for the author, call the completion service, and process the result.
The completion call and everything after it sit inside the
`try/except`; a service error is caught and nothing further happens. -/
def getContextualResponse (clientAvailable : Bool) (db : MemDB) (authorId : Nat)
    (authorName : List Char) (guildId : Option Nat) (boredom : Nat)
    (completion : Except Unit (List Char)) (sendOk : Bool) : MemDB × Nat × RespOutcome :=
  if !clientAvailable then (db, boredom, ⟨none, none, none, false⟩)
  else
    let gid := guildId.getD 0
    let db1 := (getUserProfile db authorId authorName gid).1
    match completion with
    | Except.error _ => (db1, boredom, ⟨none, none, none, true⟩)
    | Except.ok raw => applyDirectivesAndReply db1 authorId gid boredom raw sendOk

/-! ## Engagement classifier
(`AICore._should_respond_to_message`, lines 236-266) -/

/-- Embeds `_should_respond_to_message`: returns `false` when the client
is missing (line 237); on a successful completion computes
`"yes" in response.text.strip().lower()` (lines 261-263); any service
error is caught and yields `false` (lines 264-266). -/
def shouldRespondToMessage (clientAvailable : Bool) (svc : Except Unit (List Char)) : Bool :=
  if !clientAvailable then false
  else
    match svc with
    | Except.ok text => containsSub (("yes").toList) ((pstrip text).map Char.toLower)
    | Except.error _ => false

/-- Spec-side reading of the classifier contract: the trimmed response
text contains the substring `"yes"` case-insensitively. -/
def containsCaseInsensitive (pat s : List Char) : Bool :=
  containsSub (pat.map Char.toLower) (s.map Char.toLower)

/-! ## Schema migration (`AICore._migrate_database`, lines 137-176, and
`AICore.create_memory_table`, lines 178-190) -/

/-- A row of the legacy `memories` table, which lacks the `guild_id`
column: `(user_id, user_name, notes, relationship_status)`. -/
structure LegacyRow where
  user_id : Nat
  user_name : List Char
  notes : List Char
  relationship_status : List Char
deriving DecidableEq, Repr

/-- A named table is either in the legacy schema or the current one. -/
inductive Table
  | legacy (rows : List LegacyRow)
  | modern (rows : List MemRow)
deriving DecidableEq, Repr

/-- The tables of the SQLite file, keyed by name. -/
abbrev Store := List (String × Table)

def lookupTable (s : Store) (n : String) : Option Table :=
  (s.find? (fun p => p.1 == n)).map (fun p => p.2)

/-- `ALTER TABLE old RENAME TO new`. -/
def renameTable (s : Store) (old new : String) : Store :=
  s.map (fun p => if p.1 == old then (new, p.2) else p)

/-- `CREATE TABLE IF NOT EXISTS memories (...)` with the current schema. -/
def createMemoriesIfAbsent (s : Store) : Store :=
  if (lookupTable s "memories").isSome then s else s ++ [("memories", Table.modern [])]

/-- `DROP TABLE` by name. -/
def dropTable (s : Store) (n : String) : Store :=
  s.filter (fun p => p.1 != n)

/-- The row copy of migration step 3: `SELECT user_id, 0, user_name,
notes, relationship_status FROM memories_old`. -/
def legacyToModern (r : LegacyRow) : MemRow :=
  ⟨r.user_id, 0, r.user_name, r.notes, r.relationship_status⟩

/-- `INSERT INTO memories ... SELECT ... FROM memories_old`
(lines 158-161). -/
def insertSelectCopy (s : Store) : Option Store :=
  match lookupTable s "memories_old", lookupTable s "memories" with
  | some (Table.legacy rows), some (Table.modern cur) =>
    some (s.map (fun p =>
      if p.1 == "memories" then ("memories", Table.modern (cur ++ rows.map legacyToModern)) else p))
  | _, _ => none

/-- A SQLite connection: the durable (committed) store and the current
uncommitted view.  `commit` makes the current view durable; `rollback`
discards uncommitted changes. -/
structure Conn where
  committed : Store
  cur : Store
deriving DecidableEq, Repr

def commitDB (c : Conn) : Conn := ⟨c.cur, c.cur⟩

def rollbackDB (c : Conn) : Conn := ⟨c.committed, c.committed⟩

/-- Embeds `AICore.create_memory_table` (lines 178-190): create the
current-schema `memories` table if absent, then `self.db.commit()`.
The commit is part of the source and is what makes the migration
non-atomic when this is called mid-transaction. -/
def create_memory_table (c : Conn) : Conn :=
  commitDB { c with cur := createMemoriesIfAbsent c.cur }

/-- Embeds the migration branch of `AICore._migrate_database`
(lines 146-171), taken when the `memories` table lacks `guild_id`:
`BEGIN TRANSACTION`; rename `memories` to `memories_old`; call
`create_memory_table` (which commits); copy the rows forward with
`guild_id = 0`; drop `memories_old`; commit.  On any failure:
`self.db.rollback()` and re-raise.  `failDuringCopy` injects the
claim's simulated failure during the row-copy step.  Returns the final
connection state and whether the migration raised. -/
def migrateDatabase (c : Conn) (failDuringCopy : Bool) : Conn × Bool :=
  let c1 := { c with cur := renameTable c.cur "memories" "memories_old" }
  let c2 := create_memory_table c1
  if failDuringCopy then (rollbackDB c2, true)
  else
    match insertSelectCopy c2.cur with
    | none => (rollbackDB c2, true)
    | some s3 =>
      let c3 := { c2 with cur := dropTable s3 "memories_old" }
      (commitDB c3, false)

/-! ## Trigger detection, activation policy and the per-channel guard
(`AICore.on_message`, lines 325-368, and `AICore._get_server_settings`,
lines 55-61) -/

/-- Per-guild activation policy entry. -/
structure ServerSettings where
  is_active_in_all_channels : Bool
  active_channels : List Nat
deriving DecidableEq, Repr

/-- The slice of `bot.config` that `on_message` consumes.  The JSON
`server_settings` object keyed by guild-id strings is embedded as an
association list on guild ids, with the `"default"` entry held
separately. -/
structure BotConfig where
  server_settings : List (Nat × ServerSettings)
  default_settings : Option ServerSettings
  trigger_words : List (List Char)
  ignored_users : List Nat
deriving DecidableEq, Repr

/-- Embeds `AICore._get_server_settings` (lines 55-61):
`server_settings.get(guild_id_str, server_settings.get("default",
{"is_active_in_all_channels": False, "active_channels": []}))`. -/
def getServerSettings (cfg : BotConfig) (gid : Nat) : ServerSettings :=
  match (cfg.server_settings.find? (fun p => p.1 == gid)).map (fun p => p.2) with
  | some s => s
  | none => cfg.default_settings.getD ⟨false, []⟩

/-- An incoming message event, carrying the fields `on_message` reads.
`mentionsBot` embeds `self.bot.user in message.mentions`;
`isResolvedReplyToBot` embeds `message.reference and
message.reference.resolved and message.reference.resolved.author.id ==
self.bot.user.id`. -/
structure Msg where
  authorId : Nat
  authorIsBot : Bool
  channelId : Nat
  guildId : Option Nat
  mentionsBot : Bool
  isResolvedReplyToBot : Bool
  content : List Char
deriving DecidableEq, Repr

/-- Word character for the regex boundary `\b` (`\w` = `[a-zA-Z0-9_]`). -/
def isWordChar (c : Char) : Bool := c.isAlphanum || c == '_'

/-- Case-insensitive "starts with" over char lists. -/
def ciStarts : List Char → List Char → Bool
  | [], _ => true
  | _ :: _, [] => false
  | a :: w, b :: t => (a.toLower == b.toLower) && ciStarts w t

def boundaryAfterOk : List Char → Bool
  | [] => true
  | c :: _ => !isWordChar c

/-- Scanner for `wholeWordHit`; `prevIsWord` records whether the
character before the current position is a word character. -/
def wholeWordHitAux (w : List Char) : Bool → List Char → Bool
  | _, [] => false
  | prevIsWord, c :: rest =>
    (!prevIsWord && ciStarts w (c :: rest) && boundaryAfterOk ((c :: rest).drop w.length))
    || wholeWordHitAux w (isWordChar c) rest

/-- Embeds `re.search(r'\b' + re.escape(word) + r'\b', content,
re.IGNORECASE)` (line 349) for trigger words made of word characters
(for such words `\b` holds exactly when the adjacent character, if any,
is not a word character). -/
def wholeWordHit (w t : List Char) : Bool := wholeWordHitAux w false t

/-- Embeds lines 345-350: `any(...)` over the configured trigger words
(an empty word list leaves `triggered` false). -/
def anyTriggerHit (words : List (List Char)) (content : List Char) : Bool :=
  words.any (fun w => wholeWordHit w content)

/-- Embeds lines 333-336: a message in a guild must satisfy that
guild's activation policy; a message with no guild skips the check. -/
def passesGuildPolicy (cfg : BotConfig) (m : Msg) : Bool :=
  match m.guildId with
  | none => true
  | some gid =>
    let s := getServerSettings cfg gid
    s.is_active_in_all_channels || s.active_channels.contains m.channelId

/-- Embeds lines 342-353: mentioned, or a resolved reply to the agent,
or a whole-word trigger match. -/
def isAddressed (cfg : BotConfig) (m : Msg) : Bool :=
  m.mentionsBot || m.isResolvedReplyToBot || anyTriggerHit cfg.trigger_words m.content

/-- Embeds the synchronous head of `AICore.on_message` (lines 325-358),
up to and including setting the channel's busy bit: the self/bot-author
and ignored-user filters, the activation-policy check, the
`is_thinking_in_channel` busy check, the addressing check, and
`is_thinking_in_channel[channel.id] = True`.  The guard dictionary is
embedded as the list of busy channel ids.  Returns the new guard and
whether the event was accepted for processing. -/
def onMessageStart (cfg : BotConfig) (botId : Nat) (guard : List Nat) (m : Msg) :
    List Nat × Bool :=
  if m.authorId == botId || m.authorIsBot then (guard, false)
  else if cfg.ignored_users.contains m.authorId then (guard, false)
  else if !passesGuildPolicy cfg m then (guard, false)
  else if guard.contains m.channelId then (guard, false)
  else if !isAddressed cfg m then (guard, false)
  else (m.channelId :: guard, true)

/-- The fate of the `try` body of an accepted reactive cycle (lines
357-366): history + classifier said no, a reply went out, or any
exception was raised. -/
inductive CycleOutcome
  | classifierNo
  | repliedOk
  | raisedError
deriving DecidableEq, Repr

/-- A whole reactive cycle for one event: `onMessageStart`, then —
whatever the body did — the `finally` on line 367 pops the channel's
busy bit (`is_thinking_in_channel.pop(channel.id, None)`).  The final
guard does not depend on the body's outcome, which is exactly the
`finally` guarantee.  Returns the final guard and whether a cycle was
processed. -/
def onMessageCycle (cfg : BotConfig) (botId : Nat) (guard : List Nat) (m : Msg)
    (_outcome : CycleOutcome) : List Nat × Bool :=
  match onMessageStart cfg botId guard m with
  | (g, true) => (g.erase m.channelId, true)
  | (g, false) => (g, false)

/-! ## Boredom loop (`AICore.autonomous_message_loop`, lines 580-612) -/

/-- Process-wide state read by the boredom loop. -/
structure BotState where
  boredom_level : Nat
  stealth_mode : Bool
  clientAvailable : Bool
deriving DecidableEq, Repr

/-- Embeds one tick of `autonomous_message_loop`:
`if self.stealth_mode or not self.client: return` (line 582, before any
increment); `self.boredom_level += 1`; return while below the
threshold; return (counter kept) when no eligible channel exists; on a
completion the `try` sends the text when non-empty and only then sets
`self.boredom_level = 0`; any exception is caught on line 611 and the
incremented counter stays.  `eligibleExists` abstracts
`_get_eligible_channels('send_messages')` being non-empty, `completion`
the service call, `sendOk` the success of the typing/send block. -/
def autonomousMessageTick (st : BotState) (threshold : Nat) (eligibleExists : Bool)
    (completion : Except Unit (List Char)) (sendOk : Bool) : BotState :=
  if st.stealth_mode || !st.clientAvailable then st
  else
    let st1 := { st with boredom_level := st.boredom_level + 1 }
    if st1.boredom_level < threshold then st1
    else if !eligibleExists then st1
    else
      match completion with
      | Except.error _ => st1
      | Except.ok raw =>
        if raw.isEmpty then st1
        else if sendOk then { st1 with boredom_level := 0 }
        else st1

/-! ## Concrete fixtures used by the theorems below -/

/-- A legacy-schema row used for the migration scenario. -/
def legacyRowA : LegacyRow := ⟨1, ("alice").toList, ("- x").toList, ("neutral").toList⟩

/-- A store whose `memories` table still has the legacy schema. -/
def legacyStoreA : Store := [("memories", Table.legacy [legacyRowA])]

/-- The durable state the failed migration actually leaves behind. -/
def migratedBadStore : Store :=
  [("memories_old", Table.legacy [legacyRowA]), ("memories", Table.modern [])]

/-- Notes that contain the placeholder as a substring without being
equal to it. -/
def c2PriorNotes : List Char := ("- a\nNo memories yet. b").toList

def c2Db : MemDB := [⟨1, 0, ("A").toList, c2PriorNotes, ("neutral").toList⟩]

def c2WitnessDb : MemDB := [⟨1, 0, ("A").toList, placeholderNotes, ("neutral").toList⟩]

/-- A tick state with the stealth flag set. -/
def stealthState : BotState := ⟨5, true, true⟩

/-- Completion text with a duplicated `[MEMORIZE]` marker. -/
def c5Input : List Char := ("ok [MEMORIZE]fact one[MEMORIZE]fact two").toList

/-- The spec's canonical directive example, memorize marker first. -/
def c6Input : List Char :=
  ("Hello there\n[MEMORIZE]likes cats\n[RELATIONSHIP]friendly").toList

/-- Config for the single-flight witness: default policy excludes all
guild channels, user 9 ignored, no trigger words. -/
def cfgW : BotConfig := ⟨[], some ⟨false, []⟩, [], [9]⟩

def msgW : Msg := ⟨1, false, 5, none, true, false, ("hi").toList⟩

def msgW2 : Msg := ⟨2, false, 5, none, true, false, ("also hi").toList⟩

/-- Config for the DM-bypass witness: every guild entry and the default
exclude all channels. -/
def cfgV : BotConfig := ⟨[(7, ⟨false, []⟩)], some ⟨false, []⟩, [], []⟩

def msgV : Msg := ⟨3, false, 11, none, false, true, ("anything").toList⟩

def c9Db : MemDB := [⟨1, 0, ("A").toList, ("- a").toList, ("neutral").toList⟩]

/-! ## Helper lemmas -/

/-- A text with no occurrence of the separator is returned whole by
the split scanner. -/
theorem psplitAux_of_not_contains (sep : List Char) :
    ∀ (fuel : Nat) (t acc : List Char), t.length ≤ fuel →
      containsSub sep t = false →
      psplitAux sep fuel t acc = [acc.reverse ++ t] := by
  intro fuel
  induction fuel with
  | zero =>
    intro t acc hlen _
    have ht : t = [] := List.eq_nil_of_length_eq_zero (Nat.le_zero.mp hlen)
    subst ht
    simp [psplitAux]
  | succ n ih =>
    intro t acc hlen hc
    cases t with
    | nil => simp [psplitAux]
    | cons c rest =>
      unfold containsSub at hc
      rw [Bool.or_eq_false_iff] at hc
      obtain ⟨h1, h2⟩ := hc
      simp only [psplitAux, h1, Bool.false_eq_true, if_false]
      rw [ih rest (c :: acc) (Nat.succ_le_succ_iff.mp hlen) h2]
      simp

/-- Embedded `s.split(sep)` on a text not containing `sep` yields the
whole text as the single part. -/
theorem psplit_of_not_contains (sep t : List Char) (h : containsSub sep t = false) :
    psplit sep t = [t] := by
  unfold psplit
  split
  · rfl
  · rw [psplitAux_of_not_contains sep t.length t [] le_rfl h]
    simp

/-- A conditional row update over a list none of whose elements match
is the identity (the SQL `UPDATE ... WHERE` hits no row). -/
theorem map_update_eq_self {α : Type} (p : α → Bool) (f : α → α) :
    ∀ l : List α, (∀ x ∈ l, p x = false) →
      l.map (fun x => if p x then f x else x) = l := by
  intro l
  induction l with
  | nil => intro _; rfl
  | cons x xs ih =>
    intro h
    have hx := h x (List.mem_cons_self x xs)
    simp only [List.map_cons, hx, Bool.false_eq_true, if_false]
    rw [ih (fun y hy => h y (List.mem_cons_of_mem x hy))]

/-- `set_user_notes` rewrites exactly the row with the given key. -/
theorem findRow_setUserNotes (db : MemDB) (uid gid : Nat) (n : List Char) :
    findRow (setUserNotes db uid n gid) uid gid
      = (findRow db uid gid).map (fun r => { r with notes := n }) := by
  induction db with
  | nil => rfl
  | cons r rest ih =>
    unfold findRow setUserNotes at *
    cases h : rowKeyMatch uid gid r with
    | true =>
      have h' : rowKeyMatch uid gid { r with notes := n } = true := h
      simp [List.find?_cons, h, h']
    | false =>
      simp only [List.map_cons, h, Bool.false_eq_true, if_false]
      simp [List.find?_cons, h, ih]

/-- `get_user_profile` on an existing row returns the table unchanged
together with that row's notes and relationship. -/
theorem getUserProfile_of_found (db : MemDB) (uid gid : Nat) (name : List Char)
    (r : MemRow) (h : findRow db uid gid = some r) :
    getUserProfile db uid name gid = (db, r.notes, r.relationship_status) := by
  unfold getUserProfile
  simp [h]

/-- The send step passes the directive effects through unchanged. -/
theorem sendStep_effects (db : MemDB) (b : Nat) (memEff relEff : Option (List Char))
    (r : List Char) (sendOk : Bool) :
    (sendStep db b memEff relEff r sendOk).2.2.memorized = memEff
    ∧ (sendStep db b memEff relEff r sendOk).2.2.relationSet = relEff := by
  unfold sendStep
  split_ifs <;> exact ⟨rfl, rfl⟩

/-- A reply is only recorded by the branch that also resets the
boredom counter to zero. -/
theorem sendStep_replySent_boredom (db : MemDB) (b : Nat)
    (memEff relEff : Option (List Char)) (r : List Char) (sendOk : Bool)
    (h : (sendStep db b memEff relEff r sendOk).2.2.replySent.isSome = true) :
    (sendStep db b memEff relEff r sendOk).2.1 = 0 := by
  unfold sendStep at h ⊢
  split_ifs at h ⊢ <;> simp_all

/-- The memorize branch's exception exit records no reply. -/
theorem memorizeStep_error_shape (db : MemDB) (a g b : Nat) (full : List Char)
    (out : MemDB × Nat × RespOutcome) (h : memorizeStep db a g b full = Except.error out) :
    out.2.2.replySent = none := by
  simp only [memorizeStep] at h
  split at h
  · split at h
    · injection h with h'
      subst h'
      rfl
    · split at h <;> simp_all
  · simp_all

/-- The relationship branch's exception exit records no reply. -/
theorem relationStep_error_shape (db1 : MemDB) (a g b : Nat) (full r1 : List Char)
    (memEff : Option (List Char)) (out : MemDB × Nat × RespOutcome)
    (h : relationStep db1 a g b full r1 memEff = Except.error out) :
    out.2.2.replySent = none := by
  simp only [relationStep] at h
  split at h
  · split at h
    · injection h with h'
      subst h'
      rfl
    · split at h <;> simp_all
  · simp_all

/-- When the text contains no `[MEMORIZE]`, the memorize branch is a
no-op. -/
theorem memorizeStep_skip (db : MemDB) (a g b : Nat) (full : List Char)
    (h : containsSub memMarker full = false) :
    memorizeStep db a g b full = Except.ok (db, full, none) := by
  unfold memorizeStep
  simp [h]

/-- When the text contains no `[RELATIONSHIP]`, the relationship branch
is a no-op. -/
theorem relationStep_skip (db1 : MemDB) (a g b : Nat) (full r1 : List Char)
    (memEff : Option (List Char)) (h : containsSub relMarker full = false) :
    relationStep db1 a g b full r1 memEff = Except.ok (db1, r1, none) := by
  unfold relationStep
  simp [h]

/-- Whenever processing of a completion records a sent reply, the
boredom counter has been reset to zero. -/
theorem applyDirectives_reply_resets_boredom (db : MemDB) (a g b : Nat)
    (raw : List Char) (sendOk : Bool)
    (h : (applyDirectivesAndReply db a g b raw sendOk).2.2.replySent.isSome = true) :
    (applyDirectivesAndReply db a g b raw sendOk).2.1 = 0 := by
  unfold applyDirectivesAndReply at h ⊢
  cases heq : memorizeStep db a g b (pstrip raw) with
  | error out =>
    simp only [heq] at h ⊢
    rw [memorizeStep_error_shape _ _ _ _ _ _ heq] at h
    simp at h
  | ok res =>
    obtain ⟨db1, r1, memEff⟩ := res
    simp only [heq] at h ⊢
    cases heq2 : relationStep db1 a g b (pstrip raw) r1 memEff with
    | error out =>
      simp only [heq2] at h ⊢
      rw [relationStep_error_shape _ _ _ _ _ _ _ _ heq2] at h
      simp at h
    | ok res2 =>
      obtain ⟨db2, r2, relEff⟩ := res2
      simp only [heq2] at h ⊢
      exact sendStep_replySent_boredom _ _ _ _ _ _ h

/-! ## Claim theorems -/

/-- C1: contrary to the claim, migration is not all-or-nothing.
`create_memory_table` issues `self.db.commit()` inside the migration
transaction, so by the time the row-copy step runs, the rename of the
legacy table to `memories_old` and the new empty `memories` table are
already durable.  A simulated mid-copy failure therefore re-raises
(startup halts, `failed = true`) but leaves a committed store in which
the legacy data sits under `memories_old` — not under its original
name — next to a partially-populated (empty) new `memories` table. -/
theorem migration_midcopy_failure_commits_halfway :
    migrateDatabase ⟨legacyStoreA, legacyStoreA⟩ true
      = (⟨migratedBadStore, migratedBadStore⟩, true)
    ∧ lookupTable migratedBadStore "memories" = some (Table.modern [])
    ∧ lookupTable migratedBadStore "memories_old" = some (Table.legacy [legacyRowA])
    ∧ lookupTable migratedBadStore "memories" ≠ some (Table.legacy [legacyRowA]) := by
  refine ⟨rfl, rfl, rfl, ?_⟩
  decide

/-- C2 counterexample: the code tests `"No memories yet." in notes` —
substring containment, not equality.  On a record whose notes are not
equal to the placeholder but contain it as a substring, append-memory
discards every prior line instead of preserving them, so the claim as
stated is false. -/
theorem append_memory_substring_counterexample :
    c2PriorNotes ≠ placeholderNotes
    ∧ findRow (appendUserMemory c2Db 1 (("x").toList) 0) 1 0
        = some ⟨1, 0, ("A").toList, ("- x").toList, ("neutral").toList⟩
    ∧ (("- x").toList : List Char) ≠ c2PriorNotes ++ ("\n- ").toList ++ ("x").toList := by
  refine ⟨?_, rfl, ?_⟩ <;> decide

/-- C2 amended: for an existing record, append-memory replaces the
notes with a single bullet whenever the current notes *contain* the
placeholder as a substring (in particular when they equal it), and
otherwise appends exactly the text `"\n- " ++ summary` after the
existing notes — preserving all prior text, hence all prior lines
verbatim and in order, and adding one trailing bullet line when the
summary is newline-free. -/
theorem append_memory_contains_placeholder (db : MemDB) (uid gid : Nat)
    (s : List Char) (r : MemRow) (h : findRow db uid gid = some r) :
    (containsSub placeholderNotes r.notes = true →
      findRow (appendUserMemory db uid s gid) uid gid
        = some { r with notes := ("- ").toList ++ s })
    ∧ (containsSub placeholderNotes r.notes = false →
      findRow (appendUserMemory db uid s gid) uid gid
        = some { r with notes := r.notes ++ ("\n- ").toList ++ s }) := by
  unfold appendUserMemory
  rw [getUserProfile_of_found db uid gid (("Unknown").toList) r h]
  constructor <;> intro hc <;>
    simp [hc, findRow_setUserNotes, h]

/-- Witness for the C2 amended theorem at a concrete placeholder-only
profile. -/
theorem append_memory_contains_placeholder_witness :
    findRow (appendUserMemory c2WitnessDb 1 (("likes cats").toList) 0) 1 0
      = some ⟨1, 0, ("A").toList, ("- likes cats").toList, ("neutral").toList⟩ := by
  have h := (append_memory_contains_placeholder c2WitnessDb 1 0 (("likes cats").toList)
      ⟨1, 0, ("A").toList, placeholderNotes, ("neutral").toList⟩ rfl).1 (by decide)
  simpa using h

/-- C3 counterexample: on a tick with the stealth flag set, the loop
returns on line 582 *before* `self.boredom_level += 1`, so the counter
is left unchanged, not incremented by one. -/
theorem boredom_stealth_tick_counterexample :
    autonomousMessageTick stealthState 120 true (Except.ok (("x").toList)) true
      = stealthState
    ∧ stealthState.boredom_level ≠ stealthState.boredom_level + 1 := by
  exact ⟨rfl, by decide⟩

/-- C3 amended: a tick with the stealth flag set or the completion
client unavailable leaves the whole state (in particular the counter)
unchanged and performs no action; any other tick increments the
counter by exactly one, except that once the incremented counter
reaches the threshold a successful autonomous send resets it to zero —
and it does reset to zero on such a send; a successful reactive reply
also resets the counter to zero. -/
theorem boredom_counter_amended (st : BotState) (threshold : Nat) (elig : Bool)
    (completion : Except Unit (List Char)) (sendOk : Bool)
    (db : MemDB) (authorId : Nat) (authorName : List Char) (guildId : Option Nat)
    (boredom : Nat) (rcompletion : Except Unit (List Char)) (rsendOk : Bool) :
    ((st.stealth_mode || !st.clientAvailable) = true →
        autonomousMessageTick st threshold elig completion sendOk = st)
    ∧ ((st.stealth_mode || !st.clientAvailable) = false →
        (autonomousMessageTick st threshold elig completion sendOk).boredom_level
            = st.boredom_level + 1
        ∨ ((autonomousMessageTick st threshold elig completion sendOk).boredom_level = 0
            ∧ threshold ≤ st.boredom_level + 1))
    ∧ (∀ raw : List Char, (st.stealth_mode || !st.clientAvailable) = false →
        threshold ≤ st.boredom_level + 1 → elig = true → raw.isEmpty = false →
        sendOk = true →
        (autonomousMessageTick st threshold elig (Except.ok raw) sendOk).boredom_level = 0)
    ∧ ((getContextualResponse true db authorId authorName guildId boredom
            rcompletion rsendOk).2.2.replySent.isSome = true →
        (getContextualResponse true db authorId authorName guildId boredom
            rcompletion rsendOk).2.1 = 0) := by
  refine ⟨?_, ?_, ?_, ?_⟩
  · intro h
    unfold autonomousMessageTick
    simp [h]
  · intro h
    unfold autonomousMessageTick
    rw [h]
    simp only [Bool.false_eq_true, if_false]
    split
    · exact Or.inl rfl
    · split
      · exact Or.inl rfl
      · split
        · exact Or.inl rfl
        · split
          · exact Or.inl rfl
          · split
            · exact Or.inr ⟨rfl, Nat.le_of_not_lt (by assumption)⟩
            · exact Or.inl rfl
  · intro raw h hth helig hraw hsend
    unfold autonomousMessageTick
    rw [h]
    have hnl : ¬ (st.boredom_level + 1 < threshold) := Nat.not_lt.mpr hth
    simp [hnl, helig, hraw, hsend]
  · intro h
    unfold getContextualResponse at h ⊢
    simp only [Bool.not_true, Bool.false_eq_true, if_false] at h ⊢
    cases rcompletion with
    | error e => simp at h
    | ok raw => exact applyDirectives_reply_resets_boredom _ _ _ _ _ _ h

/-- Witness for the C3 amended theorem: a stealth tick keeps the
counter, a normal sub-threshold tick increments it. -/
theorem boredom_counter_amended_witness :
    autonomousMessageTick stealthState 120 true (Except.error ()) true = stealthState
    ∧ ((autonomousMessageTick ⟨5, false, true⟩ 120 true (Except.error ()) true).boredom_level
          = (5 : Nat) + 1
        ∨ ((autonomousMessageTick ⟨5, false, true⟩ 120 true (Except.error ()) true).boredom_level = 0
            ∧ (120 : Nat) ≤ 5 + 1)) := by
  constructor
  · exact (boredom_counter_amended stealthState 120 true (Except.error ()) true
      [] 0 [] none 0 (Except.error ()) true).1 rfl
  · exact (boredom_counter_amended ⟨5, false, true⟩ 120 true (Except.error ()) true
      [] 0 [] none 0 (Except.error ()) true).2.1 rfl

/-- Any event for a channel whose busy bit is set is dropped without
changing the guard (all earlier filters also drop without change). -/
theorem onMessageStart_busy_drop (cfg : BotConfig) (botId : Nat) (g : List Nat) (m : Msg)
    (h : g.contains m.channelId = true) :
    onMessageStart cfg botId g m = (g, false) := by
  unfold onMessageStart
  split_ifs <;> simp_all

/-- An accepted event was not busy and sets exactly its channel's bit. -/
theorem onMessageStart_accepted (cfg : BotConfig) (botId : Nat) (guard : List Nat) (m : Msg)
    (h : (onMessageStart cfg botId guard m).2 = true) :
    onMessageStart cfg botId guard m = (m.channelId :: guard, true) := by
  unfold onMessageStart at h ⊢
  split_ifs at h ⊢
  simp_all

/-- C4: per-channel single flight.  While a channel's busy bit is set,
any further event for that channel is dropped with the guard unchanged
(not queued); when an addressed event is accepted, a second event for
the same channel arriving before the cycle completes is dropped, the
first cycle is the only one processed, and — for every body outcome
(success, classifier "no", or a raised exception) — the `finally`
clears the busy bit, restoring the guard. -/
theorem reactive_single_flight (cfg : BotConfig) (botId : Nat) :
    (∀ (g : List Nat) (m : Msg), g.contains m.channelId = true →
        onMessageStart cfg botId g m = (g, false))
    ∧ (∀ (guard : List Nat) (m1 m2 : Msg) (outcome : CycleOutcome),
        m2.channelId = m1.channelId →
        (onMessageStart cfg botId guard m1).2 = true →
          (onMessageStart cfg botId (onMessageStart cfg botId guard m1).1 m2).2 = false
          ∧ onMessageCycle cfg botId guard m1 outcome = (guard, true)) := by
  refine ⟨fun g m h => onMessageStart_busy_drop cfg botId g m h, ?_⟩
  intro guard m1 m2 outcome hch hacc
  have hshape := onMessageStart_accepted cfg botId guard m1 hacc
  refine ⟨?_, ?_⟩
  · rw [hshape]
    have hb : (m1.channelId :: guard).contains m2.channelId = true := by
      rw [hch]
      simp
    rw [onMessageStart_busy_drop cfg botId _ m2 hb]
  · unfold onMessageCycle
    rw [hshape]
    simp

/-- Witness for C4 at a concrete configuration: a busy-channel drop, a
second concurrent event dropped, and a cycle that ends with the guard
cleared even though its body raised. -/
theorem reactive_single_flight_witness :
    onMessageStart cfgW 99 [5] msgW = ([5], false)
    ∧ (onMessageStart cfgW 99 (onMessageStart cfgW 99 [] msgW).1 msgW2).2 = false
    ∧ onMessageCycle cfgW 99 [] msgW CycleOutcome.raisedError = ([], true) := by
  refine ⟨(reactive_single_flight cfgW 99).1 [5] msgW (by decide), ?_, ?_⟩
  · exact ((reactive_single_flight cfgW 99).2 [] msgW msgW2 CycleOutcome.raisedError
      (by decide) (by decide)).1
  · exact ((reactive_single_flight cfgW 99).2 [] msgW msgW2 CycleOutcome.raisedError
      (by decide) (by decide)).2

/-- C10: a message with no guild skips the activation-policy check
entirely.  For any configuration — including one whose policy excludes
every channel — a no-guild message that passes the author/bot/ignored
filters, is addressed, and finds its channel not busy is accepted for
processing. -/
theorem dm_bypasses_activation_policy (cfg : BotConfig) (botId : Nat)
    (guard : List Nat) (m : Msg)
    (hdm : m.guildId = none)
    (hself : (m.authorId == botId) = false)
    (hbot : m.authorIsBot = false)
    (hign : cfg.ignored_users.contains m.authorId = false)
    (hbusy : guard.contains m.channelId = false)
    (haddr : isAddressed cfg m = true) :
    onMessageStart cfg botId guard m = (m.channelId :: guard, true) := by
  have hpol : passesGuildPolicy cfg m = true := by
    unfold passesGuildPolicy
    rw [hdm]
  unfold onMessageStart
  simp at hign hbusy
  simp [hself, hbot, hign, hbusy, haddr, hpol]

/-- Witness for C10: a DM accepted under a configuration whose every
policy entry (and default) excludes all channels. -/
theorem dm_bypasses_activation_policy_witness :
    onMessageStart cfgV 99 [4] msgV = (11 :: [4], true) :=
  dm_bypasses_activation_policy cfgV 99 [4] msgV rfl (by decide) rfl (by decide)
    (by decide) (by decide)

/-- C5 counterexample: on a text with a duplicated `[MEMORIZE]` marker,
the applied memory payload is `"fact one"` — cut short at the second
occurrence of the marker — not `"fact one[MEMORIZE]fact two"` as the
claim's "the preceding payload extends over it" requires. -/
theorem duplicate_marker_payload_counterexample :
    (applyDirectivesAndReply [] 1 0 0 c5Input true).2.2.memorized
      = some (("fact one").toList)
    ∧ (("fact one").toList : List Char) ≠ ("fact one[MEMORIZE]fact two").toList := by
  exact ⟨rfl, by decide⟩

/-- C5 amended: only the first occurrence of a marker starts a
directive — a later occurrence of the same marker never starts a new
one — but that later occurrence is *not* absorbed into the payload:
the payload runs up to the next occurrence of either marker, so a
duplicate cuts it short.  Stated for a text whose stripped form splits
on one marker into exactly three parts (i.e. contains it at least
twice) while the other marker is absent: the applied payload is
exactly the trimmed middle part, and the other directive is not
applied. -/
theorem duplicate_marker_truncates_payload (text p0 p1 p2 q0 q1 q2 : List Char) :
    (psplit memMarker (pstrip text) = [p0, p1, p2] →
      containsSub relMarker (pstrip text) = false →
      containsSub relMarker p1 = false →
      ∀ (db : MemDB) (a g b : Nat) (sendOk : Bool),
        (applyDirectivesAndReply db a g b text sendOk).2.2.memorized
            = (if (pstrip p1).isEmpty then none else some (pstrip p1))
        ∧ (applyDirectivesAndReply db a g b text sendOk).2.2.relationSet = none)
    ∧ (psplit relMarker (pstrip text) = [q0, q1, q2] →
      containsSub memMarker (pstrip text) = false →
      containsSub memMarker q1 = false →
      ∀ (db : MemDB) (a g b : Nat) (sendOk : Bool),
        (applyDirectivesAndReply db a g b text sendOk).2.2.relationSet
            = (if (pstrip q1).isEmpty then none else some (pstrip q1))
        ∧ (applyDirectivesAndReply db a g b text sendOk).2.2.memorized = none) := by
  constructor
  · intro h1 h2 h3 db a g b sendOk
    have hc : containsSub memMarker (pstrip text) = true := by
      cases hcb : containsSub memMarker (pstrip text) with
      | false =>
        rw [psplit_of_not_contains _ _ hcb] at h1
        simp at h1
      | true => rfl
    have hm : memorizeStep db a g b (pstrip text)
        = (if (pstrip p1).isEmpty then Except.ok (db, pstrip p0, none)
           else Except.ok (appendUserMemory db a (pstrip p1) g, pstrip p0, some (pstrip p1))) := by
      unfold memorizeStep
      rw [h1]
      simp [hc, psplit_of_not_contains relMarker p1 h3]
    unfold applyDirectivesAndReply
    cases he : (pstrip p1).isEmpty with
    | true =>
      rw [he] at hm
      simp only [if_true] at hm
      simp only [hm, relationStep_skip db a g b (pstrip text) (pstrip p0) none h2]
      exact ⟨(sendStep_effects db b none none (pstrip p0) sendOk).1,
        (sendStep_effects db b none none (pstrip p0) sendOk).2⟩
    | false =>
      rw [he] at hm
      simp only [Bool.false_eq_true, if_false] at hm
      simp only [hm, relationStep_skip (appendUserMemory db a (pstrip p1) g) a g b
        (pstrip text) (pstrip p0) (some (pstrip p1)) h2]
      exact ⟨(sendStep_effects _ b (some (pstrip p1)) none (pstrip p0) sendOk).1,
        (sendStep_effects _ b (some (pstrip p1)) none (pstrip p0) sendOk).2⟩
  · intro h1 h2 h3 db a g b sendOk
    have hc : containsSub relMarker (pstrip text) = true := by
      cases hcb : containsSub relMarker (pstrip text) with
      | false =>
        rw [psplit_of_not_contains _ _ hcb] at h1
        simp at h1
      | true => rfl
    have hr : relationStep db a g b (pstrip text) (pstrip text) none
        = (if (pstrip q1).isEmpty then Except.ok (db, pstrip q0, none)
           else Except.ok (setUserRelationship db a (pstrip q1) g, pstrip q0, some (pstrip q1))) := by
      unfold relationStep
      rw [h1]
      simp [hc, psplit_of_not_contains memMarker q1 h3]
    unfold applyDirectivesAndReply
    simp only [memorizeStep_skip db a g b (pstrip text) h2]
    cases he : (pstrip q1).isEmpty with
    | true =>
      rw [he] at hr
      simp only [if_true] at hr
      simp only [hr]
      exact ⟨(sendStep_effects db b none none (pstrip q0) sendOk).2,
        (sendStep_effects db b none none (pstrip q0) sendOk).1⟩
    | false =>
      rw [he] at hr
      simp only [Bool.false_eq_true, if_false] at hr
      simp only [hr]
      exact ⟨(sendStep_effects _ b none (some (pstrip q1)) (pstrip q0) sendOk).2,
        (sendStep_effects _ b none (some (pstrip q1)) (pstrip q0) sendOk).1⟩

/-- Witness for the C5 amended theorem at the concrete duplicated
input. -/
theorem duplicate_marker_truncates_payload_witness :
    (applyDirectivesAndReply [] 1 0 0 c5Input true).2.2.memorized
        = some (("fact one").toList)
    ∧ (applyDirectivesAndReply [] 1 0 0 c5Input true).2.2.relationSet = none := by
  have h := (duplicate_marker_truncates_payload c5Input (("ok ").toList)
      (("fact one").toList) (("fact two").toList) [] [] []).1
      (by decide) (by decide) (by decide) [] 1 0 0 true
  simpa using h

/-- C6: the claim's first sub-property fails on the code.  On
`"Hello there\n[MEMORIZE]likes cats\n[RELATIONSHIP]friendly"` the
memorize payload is applied, but the relationship branch then splits
the already-truncated `reply_text` (which no longer contains the
marker), so Python `parts[1]` raises `IndexError`: the relationship is
never set and no reply is sent (first conjunct, `errored = true`).
The claim's other two sub-properties do hold: with the markers in the
reversed order all three fields are produced, and marker-free text
yields the full trimmed text as the reply with no directives. -/
theorem directive_order_indexerror_bug :
    getContextualResponse true [] 1 (("Alice").toList) none 3 (Except.ok c6Input) true
      = ([⟨1, 0, ("Alice").toList, ("- likes cats").toList, ("neutral").toList⟩], 3,
          ⟨some (("likes cats").toList), none, none, true⟩)
    ∧ (applyDirectivesAndReply [] 1 0 3
          (("Hello there\n[RELATIONSHIP]friendly\n[MEMORIZE]likes cats").toList) true).2.2
        = ⟨some (("likes cats").toList), some (("friendly").toList),
            some (("Hello there").toList), false⟩
    ∧ (applyDirectivesAndReply [] 1 0 3 (("  no markers here  ").toList) true).2.2
        = ⟨none, none, some (("no markers here").toList), false⟩ := by
  exact ⟨rfl, rfl, rfl⟩

/-- C7: the engagement classifier returns true exactly when the
response text, after trimming, contains `"yes"` case-insensitively;
a service error yields false (fail-closed). -/
theorem classifier_yes_iff_fail_closed :
    (∀ text : List Char,
        shouldRespondToMessage true (Except.ok text) = true
          ↔ containsCaseInsensitive (("yes").toList) (pstrip text) = true)
    ∧ shouldRespondToMessage true (Except.error ()) = false := by
  have hy : (("yes").toList).map Char.toLower = ("yes").toList := by decide
  refine ⟨?_, rfl⟩
  intro text
  unfold shouldRespondToMessage containsCaseInsensitive
  rw [hy]
  simp

/-- C8 counterexample: recording an already-recorded message id is not
failure-free — the second `INSERT` on the primary-key column violates
the unique constraint and raises, so `record` is not idempotent in the
claim's "does not fail" sense (the log state itself is unchanged). -/
theorem record_reaction_second_insert_fails :
    recordReaction [] 42 = Except.ok [42]
    ∧ recordReaction [42] 42 = Except.error () := by
  exact ⟨rfl, rfl⟩

/-- C8 amended: recording an unrecorded id succeeds and makes `has`
true; recording an id already in the log raises the primary-key
constraint error and leaves the log unchanged — so the state after
recording twice equals the state after recording once, but the second
record fails instead of succeeding silently. -/
theorem record_reaction_amended (log : ReactionLog) (mid : Nat) :
    (hasReacted log mid = false →
        recordReaction log mid = Except.ok (mid :: log)
        ∧ hasReacted (mid :: log) mid = true)
    ∧ (hasReacted log mid = true →
        recordReaction log mid = Except.error ()) := by
  unfold hasReacted recordReaction
  constructor
  · intro h
    simp at h
    refine ⟨by simp [h], by simp⟩
  · intro h
    simp at h
    simp [h]

/-- Witness for the C8 amended theorem on an empty log. -/
theorem record_reaction_amended_witness :
    recordReaction [] 7 = Except.ok [7] ∧ hasReacted [7] 7 = true :=
  (record_reaction_amended [] 7).1 rfl

/-- C9: `set_user_notes` and `set_user_relationship` issue an SQL
`UPDATE ... WHERE user_id = ? AND guild_id = ?`; when no row has that
key, the update matches nothing, creates nothing, and leaves the store
unchanged — in particular the `!memory clear` command for a
never-profiled user modifies nothing. -/
theorem update_missing_key_is_noop (db : MemDB) (uid gid : Nat)
    (newNotes status : List Char) (h : findRow db uid gid = none) :
    setUserNotes db uid newNotes gid = db
    ∧ setUserRelationship db uid status gid = db
    ∧ memoryClear db uid gid = db := by
  unfold findRow at h
  have hall : ∀ r ∈ db, rowKeyMatch uid gid r = false := by
    intro r hr
    have := List.find?_eq_none.mp h r hr
    simpa using this
  unfold memoryClear setUserNotes setUserRelationship
  exact ⟨map_update_eq_self _ _ db hall, map_update_eq_self _ _ db hall,
    map_update_eq_self _ _ db hall⟩

/-- Witness for C9 at a concrete store with a single differently-keyed
row. -/
theorem update_missing_key_is_noop_witness :
    setUserNotes c9Db 2 (("z").toList) 0 = c9Db
    ∧ setUserRelationship c9Db 2 (("wary").toList) 0 = c9Db
    ∧ memoryClear c9Db 2 0 = c9Db :=
  update_missing_key_is_noop c9Db 2 0 (("z").toList) (("wary").toList) rfl

end AICore
